import Mathlib

/-
Verification of the CLI wiring of prometheus-hetzner-sd
(src/cmd/prometheus-hetzner-sd/main.go).

The repository under src/ contains only the main package.  The packages
pkg/config, pkg/action and the helpers readConfig and setupLogger are not
under src/; following the spec, those are modelled abstractly by their
results (a config read either fails with an error or yields a merged
configuration; action.Server is an opaque dispatch target represented by
the Outcome.serve constructor).
-/

namespace HetznerSD

/-- Credential mirrors config.Credential as used in main.go lines 137-141:
a project name, a username and a password. -/
structure Credential where
  project : String
  username : String
  password : String
deriving DecidableEq, Repr

/-- Target mirrors the cfg.Target fields used in main.go: the output file
path, the refresh interval and the credential list. -/
structure Target where
  file : String
  refresh : Int
  credentials : List Credential
deriving DecidableEq, Repr

/-- Logs mirrors the cfg.Logs fields bound by the global flags
(main.go lines 47-60). -/
structure Logs where
  level : String
  pretty : Bool
deriving DecidableEq, Repr

/-- Server mirrors the cfg.Server fields bound by the web flags
(main.go lines 67-80). -/
structure ServerCfg where
  addr : String
  path : String
deriving DecidableEq, Repr

/-- Config mirrors the configuration struct of pkg/config as used in
main.go (fields Logs, Server and Target). -/
structure Config where
  logs : Logs
  server : ServerCfg
  target : Target
deriving DecidableEq, Repr

/-- MainError enumerates the errors the server action can return
(main.go lines 15-27), together with an error propagated from readConfig
(modelled by its message). -/
inductive MainError where
  | readConfig (msg : String)
  | missingOutputFile
  | missingHetznerUsername
  | missingHetznerPassword
  | missingAnyCredentials
deriving DecidableEq, Repr

/-- errMessage gives the message of each named error, from the
errors.New calls in main.go lines 16-26. -/
def errMessage : MainError → String
  | .readConfig msg => msg
  | .missingOutputFile => "Missing path for output.file"
  | .missingHetznerUsername => "Missing required hetzner.username"
  | .missingHetznerPassword => "Missing required hetzner.password"
  | .missingAnyCredentials => "Missing any credentials"

/-- Outcome of one invocation of the server command action: either the
action returns an error (fail carries the configuration state at the
return), or it dispatches to action.Server with the final configuration
and returns whatever action.Server returns (serve). -/
inductive Outcome where
  | fail (cfg : Config) (e : MainError)
  | serve (cfg : Config)
deriving DecidableEq, Repr

/-- isServe is true exactly when the action dispatched to action.Server. -/
def Outcome.isServe : Outcome → Bool
  | .serve _ => true
  | .fail _ _ => false

/-- Modelled from the spec: readConfig (pkg not under src/) reads the
YAML/JSON file named by hetzner.config and merges it into cfg; it is
represented by its result, either a read error or the merged
configuration.  mergedConfig is the configuration state after main.go
lines 117-126: when the hetzner.config flag is not set, readConfig is not
invoked and the configuration is unchanged. -/
def mergedConfig (cfg : Config) (configSet : Bool)
    (readResult : Except String Config) : Except String Config :=
  if configSet then readResult else .ok cfg

/-- flagCredential is the credential built from the two flag values in
main.go lines 137-141: project "default", and the given username and
password. -/
def flagCredential (username password : String) : Credential :=
  { project := "default", username := username, password := password }

/-- afterFlagHandling is the configuration after main.go lines 136-147:
when both hetzner.username and hetzner.password are set, the flag
credential is appended to cfg.Target.Credentials; otherwise the
configuration is unchanged. -/
def afterFlagHandling (cfg : Config) (usernameSet passwordSet : Bool)
    (username password : String) : Config :=
  if usernameSet = true ∧ passwordSet = true then
    { cfg with target := { cfg.target with
        credentials := cfg.target.credentials ++ [flagCredential username password] } }
  else cfg

/-- serverAction is the action of the server command, main.go lines
114-174, as a function of the pre-action configuration (after flag and
environment binding), whether the hetzner.config flag is set and the
result of reading it, whether each credential flag is set, and the two
flag string values. -/
def serverAction (cfg : Config) (configSet : Bool)
    (readResult : Except String Config)
    (usernameSet passwordSet : Bool) (username password : String) : Outcome :=
  match mergedConfig cfg configSet readResult with
  | .error e => .fail cfg (.readConfig e)
  | .ok cfg1 =>
    if cfg1.target.file = "" then
      .fail cfg1 .missingOutputFile
    else
      let cfg2 := afterFlagHandling cfg1 usernameSet passwordSet username password
      if usernameSet = true ∧ passwordSet = true ∧ username = "" then
        .fail cfg2 .missingHetznerUsername
      else if usernameSet = true ∧ passwordSet = true ∧ password = "" then
        .fail cfg2 .missingHetznerPassword
      else if cfg2.target.credentials.length = 0 then
        .fail cfg2 .missingAnyCredentials
      else
        .serve cfg2

/-- FlagDefault is the default value of a CLI flag: string flags and the
one integer flag (output.refresh). -/
inductive FlagDefault where
  | str (v : String)
  | int (v : Int)
deriving DecidableEq, Repr

/-- FlagSpec records, for one flag of the server command, its name, the
environment variable it is bound to, and its default value. -/
structure FlagSpec where
  name : String
  envVar : String
  deflt : FlagDefault
deriving DecidableEq, Repr

/-- serverFlags is the flag table of the server command, main.go lines
66-113, in source order. -/
def serverFlags : List FlagSpec :=
  [ { name := "web.address", envVar := "PROMETHEUS_HETZNER_WEB_ADDRESS",
      deflt := .str "0.0.0.0:9000" },
    { name := "web.path", envVar := "PROMETHEUS_HETZNER_WEB_PATH",
      deflt := .str "/metrics" },
    { name := "output.file", envVar := "PROMETHEUS_HETZNER_OUTPUT_FILE",
      deflt := .str "/etc/prometheus/hetzner.json" },
    { name := "output.refresh", envVar := "PROMETHEUS_HETZNER_OUTPUT_REFRESH",
      deflt := .int 30 },
    { name := "hetzner.username", envVar := "PROMETHEUS_HETZNER_USERNAME",
      deflt := .str "" },
    { name := "hetzner.password", envVar := "PROMETHEUS_HETZNER_PASSWORD",
      deflt := .str "" },
    { name := "hetzner.config", envVar := "PROMETHEUS_HETZNER_CONFIG",
      deflt := .str "" } ]

/-- mainExitCode models main.go lines 191-193: when app.Run returns a
non-nil error the process exits with status 1 (some 1); when it returns
nil, main returns normally without calling os.Exit (none). -/
def mainExitCode (runErr : Option MainError) : Option Nat :=
  match runErr with
  | some _ => some 1
  | none => none

/-- Modelled from the spec: app.Run of the CLI library (not under src/)
returns the error returned by the dispatched command action; for a server
invocation whose action dispatched to action.Server, it returns whatever
action.Server returned (serverErr). -/
def appRunError (o : Outcome) (serverErr : Option MainError) : Option MainError :=
  match o with
  | .fail _ e => some e
  | .serve _ => serverErr

/-- defaultConfig is a sample pre-action configuration holding the
documented default flag values and no credentials, used for concrete
evaluations. -/
def defaultConfig : Config :=
  { logs := { level := "info", pretty := false },
    server := { addr := "0.0.0.0:9000", path := "/metrics" },
    target := { file := "/etc/prometheus/hetzner.json", refresh := 30,
                credentials := [] } }

/-- emptyFileConfig is defaultConfig with an empty output file path, used
for concrete evaluations of the output-file check. -/
def emptyFileConfig : Config :=
  { defaultConfig with target := { defaultConfig.target with file := "" } }

end HetznerSD

namespace HetznerSD

/-- C1 counterexample: with no config file set, the default (non-empty)
output file, and both credential flags set with an empty username and a
non-empty password, the optional config read trivially succeeds,
cfg.Target.File is non-empty and cfg.Target.Credentials is non-empty
after flag handling, yet the action returns ErrMissingHetznerUsername and
never calls action.Server, contradicting the claim as stated. -/
theorem success_claim_counterexample :
    mergedConfig defaultConfig false (.ok defaultConfig) = .ok defaultConfig ∧
    defaultConfig.target.file ≠ "" ∧
    (afterFlagHandling defaultConfig true true "" "secret").target.credentials ≠ [] ∧
    serverAction defaultConfig false (.ok defaultConfig) true true "" "secret" =
      .fail (afterFlagHandling defaultConfig true true "" "secret")
        .missingHetznerUsername ∧
    (serverAction defaultConfig false (.ok defaultConfig) true true "" "secret").isServe
      = false :=
  ⟨rfl, by decide, by decide, by decide, by decide⟩

/-- C1 (amended): for every invocation of the server command in which the
optional config-file read succeeds (or no config file is set),
cfg.Target.File is non-empty, whenever both hetzner.username and
hetzner.password are set their values are non-empty, and
cfg.Target.Credentials is non-empty after flag handling, the action
dispatches to action.Server with the final configuration exactly once and
returns its result. -/
theorem success_dispatches_to_server (cfg cfg1 : Config) (configSet : Bool)
    (readResult : Except String Config) (usernameSet passwordSet : Bool)
    (username password : String)
    (hmerge : mergedConfig cfg configSet readResult = .ok cfg1)
    (hfile : cfg1.target.file ≠ "")
    (hflags : usernameSet = true → passwordSet = true →
      username ≠ "" ∧ password ≠ "")
    (hcred : (afterFlagHandling cfg1 usernameSet passwordSet username
      password).target.credentials ≠ []) :
    serverAction cfg configSet readResult usernameSet passwordSet username password =
      .serve (afterFlagHandling cfg1 usernameSet passwordSet username password) := by
  unfold serverAction
  rw [hmerge]
  by_cases hb : usernameSet = true ∧ passwordSet = true
  · obtain ⟨hu, hp⟩ := hflags hb.1 hb.2
    simp [hfile, hu, hp, List.length_eq_zero, hcred]
  · have h1 : ¬(usernameSet = true ∧ passwordSet = true ∧ username = "") :=
      fun h => hb ⟨h.1, h.2.1⟩
    have h2 : ¬(usernameSet = true ∧ passwordSet = true ∧ password = "") :=
      fun h => hb ⟨h.1, h.2.1⟩
    simp [hfile, h1, h2, List.length_eq_zero, hcred]

/-- C1 witness: a concrete successful invocation (both flags set to
non-empty values, default output file) dispatches to action.Server. -/
theorem success_dispatches_to_server_witness :
    serverAction defaultConfig false (.ok defaultConfig) true true "user" "pass" =
      .serve (afterFlagHandling defaultConfig true true "user" "pass") :=
  success_dispatches_to_server defaultConfig defaultConfig false (.ok defaultConfig)
    true true "user" "pass" rfl (by decide)
    (fun _ _ => by decide) (by decide)

/-- C2: when the execution reaches the point after the optional
config-file merge and the flag handling (the merge succeeded and the
output-file check passed) and cfg.Target.Credentials is empty there, the
action returns ErrMissingAnyCredentials (message "Missing any
credentials") and action.Server is never called. -/
theorem empty_credentials_error (cfg cfg1 : Config) (configSet : Bool)
    (readResult : Except String Config) (usernameSet passwordSet : Bool)
    (username password : String)
    (hmerge : mergedConfig cfg configSet readResult = .ok cfg1)
    (hfile : cfg1.target.file ≠ "")
    (hcred : (afterFlagHandling cfg1 usernameSet passwordSet username
      password).target.credentials = []) :
    serverAction cfg configSet readResult usernameSet passwordSet username password =
      .fail cfg1 .missingAnyCredentials ∧
    errMessage .missingAnyCredentials = "Missing any credentials" ∧
    (serverAction cfg configSet readResult usernameSet passwordSet username
      password).isServe = false := by
  have hb : ¬(usernameSet = true ∧ passwordSet = true) := by
    intro hb
    rw [afterFlagHandling, if_pos hb] at hcred
    simp at hcred
  have hflag : afterFlagHandling cfg1 usernameSet passwordSet username password
      = cfg1 := by
    rw [afterFlagHandling, if_neg hb]
  rw [hflag] at hcred
  have h1 : ¬(usernameSet = true ∧ passwordSet = true ∧ username = "") :=
    fun h => hb ⟨h.1, h.2.1⟩
  have h2 : ¬(usernameSet = true ∧ passwordSet = true ∧ password = "") :=
    fun h => hb ⟨h.1, h.2.1⟩
  refine ⟨?_, rfl, ?_⟩ <;>
    · unfold serverAction
      rw [hmerge]
      simp [hfile, h1, h2, hflag, hcred, Outcome.isServe]

/-- C2 witness: a concrete invocation with the default output file, no
config file and no credential flags returns ErrMissingAnyCredentials. -/
theorem empty_credentials_error_witness :
    serverAction defaultConfig false (.ok defaultConfig) false false "" "" =
      .fail defaultConfig .missingAnyCredentials :=
  (empty_credentials_error defaultConfig defaultConfig false (.ok defaultConfig)
    false false "" "" rfl (by decide) (by decide)).1

/-- C3: when both credential flags are set and the output-file check
passed, an empty username yields ErrMissingHetznerUsername, otherwise an
empty password yields ErrMissingHetznerPassword, and otherwise the
credential with project "default" and the two flag values is appended to
cfg.Target.Credentials and validation proceeds (the action goes on to the
credentials check and dispatches to action.Server). -/
theorem credential_flag_validation (cfg cfg1 : Config) (configSet : Bool)
    (readResult : Except String Config) (username password : String)
    (hmerge : mergedConfig cfg configSet readResult = .ok cfg1)
    (hfile : cfg1.target.file ≠ "") :
    (username = "" →
      serverAction cfg configSet readResult true true username password =
        .fail (afterFlagHandling cfg1 true true username password)
          .missingHetznerUsername) ∧
    (username ≠ "" → password = "" →
      serverAction cfg configSet readResult true true username password =
        .fail (afterFlagHandling cfg1 true true username password)
          .missingHetznerPassword) ∧
    (username ≠ "" → password ≠ "" →
      (afterFlagHandling cfg1 true true username password).target.credentials =
        cfg1.target.credentials ++ [flagCredential username password] ∧
      serverAction cfg configSet readResult true true username password =
        .serve (afterFlagHandling cfg1 true true username password)) ∧
    errMessage .missingHetznerUsername = "Missing required hetzner.username" ∧
    errMessage .missingHetznerPassword = "Missing required hetzner.password" := by
  refine ⟨?_, ?_, ?_, rfl, rfl⟩
  · intro hu
    unfold serverAction
    rw [hmerge]
    simp [hfile, hu]
  · intro hu hp
    unfold serverAction
    rw [hmerge]
    simp [hfile, hu, hp]
  · intro hu hp
    constructor
    · rw [afterFlagHandling, if_pos ⟨rfl, rfl⟩]
    · unfold serverAction
      rw [hmerge]
      simp [hfile, hu, hp, afterFlagHandling]

/-- C3 witness: a concrete invocation with both flags set and an empty
username returns ErrMissingHetznerUsername. -/
theorem credential_flag_validation_witness :
    serverAction defaultConfig false (.ok defaultConfig) true true "" "pw" =
      .fail (afterFlagHandling defaultConfig true true "" "pw")
        .missingHetznerUsername :=
  (credential_flag_validation defaultConfig defaultConfig false (.ok defaultConfig)
    "" "pw" rfl (by decide)).1 rfl

/-- C4: when the configuration after the optional config-file merge has an
empty cfg.Target.File, the action returns ErrMissingOutputFile (message
"Missing path for output.file") with the merged configuration untouched
(before any credential handling), and action.Server is never called. -/
theorem missing_output_file_error (cfg cfg1 : Config) (configSet : Bool)
    (readResult : Except String Config) (usernameSet passwordSet : Bool)
    (username password : String)
    (hmerge : mergedConfig cfg configSet readResult = .ok cfg1)
    (hfile : cfg1.target.file = "") :
    serverAction cfg configSet readResult usernameSet passwordSet username password =
      .fail cfg1 .missingOutputFile ∧
    errMessage .missingOutputFile = "Missing path for output.file" ∧
    (serverAction cfg configSet readResult usernameSet passwordSet username
      password).isServe = false := by
  refine ⟨?_, rfl, ?_⟩ <;>
    · unfold serverAction
      rw [hmerge]
      simp [hfile, Outcome.isServe]

/-- C4 witness: a concrete invocation whose output file path is empty
returns ErrMissingOutputFile. -/
theorem missing_output_file_error_witness :
    serverAction emptyFileConfig false (.ok emptyFileConfig) false false "" "" =
      .fail emptyFileConfig .missingOutputFile :=
  (missing_output_file_error emptyFileConfig emptyFileConfig false
    (.ok emptyFileConfig) false false "" "" rfl (by decide)).1

/-- C5: when hetzner.config is set and the config read fails, the action
returns that same read error immediately, with the pre-merge
configuration untouched (so no output-file or credential validation ran)
and action.Server never called; when hetzner.config is not set, the read
result is never consulted: the outcome is the same for any two read
results. -/
theorem read_config_error_propagates :
    (∀ (cfg : Config) (e : String) (usernameSet passwordSet : Bool)
       (username password : String),
      serverAction cfg true (.error e) usernameSet passwordSet username password =
        .fail cfg (.readConfig e) ∧
      (serverAction cfg true (.error e) usernameSet passwordSet username
        password).isServe = false) ∧
    (∀ (cfg : Config) (r1 r2 : Except String Config)
       (usernameSet passwordSet : Bool) (username password : String),
      serverAction cfg false r1 usernameSet passwordSet username password =
        serverAction cfg false r2 usernameSet passwordSet username password) := by
  constructor
  · intro cfg e usernameSet passwordSet username password
    constructor <;> simp [serverAction, mergedConfig, Outcome.isServe]
  · intro cfg r1 r2 usernameSet passwordSet username password
    simp [serverAction, mergedConfig]

/-- C6: the server command binds exactly these seven options, each to a
command-line flag and to a PROMETHEUS_HETZNER_* environment variable,
with the documented defaults: web.address "0.0.0.0:9000", web.path
"/metrics", output.file "/etc/prometheus/hetzner.json", output.refresh
30, and empty strings for hetzner.username, hetzner.password and
hetzner.config. -/
theorem server_flag_bindings :
    serverFlags.map FlagSpec.name =
      ["web.address", "web.path", "output.file", "output.refresh",
       "hetzner.username", "hetzner.password", "hetzner.config"] ∧
    serverFlags.map FlagSpec.envVar =
      ["PROMETHEUS_HETZNER_WEB_ADDRESS", "PROMETHEUS_HETZNER_WEB_PATH",
       "PROMETHEUS_HETZNER_OUTPUT_FILE", "PROMETHEUS_HETZNER_OUTPUT_REFRESH",
       "PROMETHEUS_HETZNER_USERNAME", "PROMETHEUS_HETZNER_PASSWORD",
       "PROMETHEUS_HETZNER_CONFIG"] ∧
    serverFlags.map FlagSpec.deflt =
      [.str "0.0.0.0:9000", .str "/metrics", .str "/etc/prometheus/hetzner.json",
       .int 30, .str "", .str "", .str ""] :=
  ⟨rfl, rfl, rfl⟩

/-- C8: when both credential flags are set (and the output-file check
passed), the flag credential is appended to cfg.Target.Credentials before
the emptiness checks, so on every ErrMissingHetznerUsername or
ErrMissingHetznerPassword return the configuration carried at the return
already contains the invalid credential. -/
theorem invalid_flag_credential_appended (cfg cfg1 : Config) (configSet : Bool)
    (readResult : Except String Config) (username password : String)
    (hmerge : mergedConfig cfg configSet readResult = .ok cfg1)
    (hfile : cfg1.target.file ≠ "") :
    (afterFlagHandling cfg1 true true username password).target.credentials =
      cfg1.target.credentials ++ [flagCredential username password] ∧
    (∀ (c : Config) (e : MainError),
      serverAction cfg configSet readResult true true username password =
        .fail c e →
      e = .missingHetznerUsername ∨ e = .missingHetznerPassword →
      c = afterFlagHandling cfg1 true true username password ∧
      flagCredential username password ∈ c.target.credentials) := by
  have happ : (afterFlagHandling cfg1 true true username password).target.credentials
      = cfg1.target.credentials ++ [flagCredential username password] := by
    rw [afterFlagHandling, if_pos ⟨rfl, rfl⟩]
  refine ⟨happ, ?_⟩
  intro c e heq _
  unfold serverAction at heq
  rw [hmerge] at heq
  by_cases hu : username = ""
  · subst hu
    simp [hfile] at heq
    obtain ⟨hc, he⟩ := heq
    subst hc
    exact ⟨rfl, by rw [happ]; simp⟩
  · by_cases hp : password = ""
    · subst hp
      simp [hfile, hu] at heq
      obtain ⟨hc, he⟩ := heq
      subst hc
      exact ⟨rfl, by rw [happ]; simp⟩
    · simp [hfile, hu, hp, afterFlagHandling] at heq

/-- C8 witness: at a concrete invocation with an empty username, the
configuration carried by the error return contains the invalid flag
credential. -/
theorem invalid_flag_credential_appended_witness :
    flagCredential "" "pw2" ∈
      (afterFlagHandling defaultConfig true true "" "pw2").target.credentials :=
  ((invalid_flag_credential_appended defaultConfig defaultConfig false
      (.ok defaultConfig) "" "pw2" rfl (by decide)).2
    (afterFlagHandling defaultConfig true true "" "pw2")
    .missingHetznerUsername (by decide) (Or.inl rfl)).2

/-- C9: when exactly one of the two credential flags is set (whatever the
values), no credential is built from the flags (the configuration after
flag handling is the merged configuration itself), and if the merged
configuration holds no credentials the action returns
ErrMissingAnyCredentials rather than a specific missing-username or
missing-password error. -/
theorem single_flag_ignored (cfg cfg1 : Config) (configSet : Bool)
    (readResult : Except String Config) (usernameSet passwordSet : Bool)
    (username password : String)
    (hmerge : mergedConfig cfg configSet readResult = .ok cfg1)
    (hfile : cfg1.target.file ≠ "")
    (hxor : usernameSet ≠ passwordSet) :
    afterFlagHandling cfg1 usernameSet passwordSet username password = cfg1 ∧
    (cfg1.target.credentials = [] →
      serverAction cfg configSet readResult usernameSet passwordSet username
        password = .fail cfg1 .missingAnyCredentials) := by
  have hb : ¬(usernameSet = true ∧ passwordSet = true) := by
    intro hb
    exact hxor (hb.1.trans hb.2.symm)
  have hflag : afterFlagHandling cfg1 usernameSet passwordSet username password
      = cfg1 := by
    rw [afterFlagHandling, if_neg hb]
  have h1 : ¬(usernameSet = true ∧ passwordSet = true ∧ username = "") :=
    fun h => hb ⟨h.1, h.2.1⟩
  have h2 : ¬(usernameSet = true ∧ passwordSet = true ∧ password = "") :=
    fun h => hb ⟨h.1, h.2.1⟩
  refine ⟨hflag, fun hcred => ?_⟩
  unfold serverAction
  rw [hmerge]
  simp [hfile, h1, h2, hflag, hcred]

/-- C9 witness: with only hetzner.username set (to a non-empty value) and
no other credentials, a concrete invocation returns
ErrMissingAnyCredentials. -/
theorem single_flag_ignored_witness :
    serverAction defaultConfig false (.ok defaultConfig) true false "user" "" =
      .fail defaultConfig .missingAnyCredentials :=
  (single_flag_ignored defaultConfig defaultConfig false (.ok defaultConfig)
    true false "user" "" rfl (by decide) (by decide)).2 rfl

/-- C10: whenever app.Run returns a non-nil error the process exits with
status 1, and in particular every validation failure of the server action
leads to exit status 1 through app.Run; when app.Run returns nil, main
returns normally without calling os.Exit. -/
theorem run_error_exit_code :
    (∀ runErr : Option MainError, runErr ≠ none → mainExitCode runErr = some 1) ∧
    mainExitCode none = none ∧
    (∀ (cfg c : Config) (e : MainError) (configSet : Bool)
       (readResult : Except String Config) (usernameSet passwordSet : Bool)
       (username password : String) (serverErr : Option MainError),
      serverAction cfg configSet readResult usernameSet passwordSet username
        password = .fail c e →
      mainExitCode (appRunError (serverAction cfg configSet readResult usernameSet
        passwordSet username password) serverErr) = some 1) := by
  refine ⟨?_, rfl, ?_⟩
  · intro runErr h
    cases runErr with
    | none => exact absurd rfl h
    | some e => rfl
  · intro cfg c e configSet readResult usernameSet passwordSet username password
      serverErr heq
    rw [heq]
    rfl

/-- C10 witness: a concrete non-nil app.Run error gives exit status 1. -/
theorem run_error_exit_code_witness :
    mainExitCode (some MainError.missingAnyCredentials) = some 1 :=
  run_error_exit_code.1 (some .missingAnyCredentials) (by decide)

end HetznerSD
